import Mathlib

/-!
Verification of the authentication token lifecycle of the nest-boilerplate
repository: a shallow embedding of `src/common/utils/time.util.ts`,
`src/modules/auth/services/token.service.ts`, `src/modules/auth/auth.service.ts`
(the `AuthService` class), `src/modules/auth/strategies/jwt.strategy.ts` and the
`findOne` contract of `src/common/services/base.service.ts`, together with
theorems about rotation, revocation, blacklisting and duration parsing.

Conventions of the embedding:
* JS `number` values that the code only ever uses as integers are `Nat`/`Int`;
  Unix timestamps produced by `DateTime.toSeconds()` (fractional seconds) are `ℚ`.
* Redis is the only shared mutable state; it is modelled explicitly and every
  store call is a step of a state monad with fault injection, so that the
  `try`/`catch` blocks of the source can be modelled faithfully.
* `NaN` results of JS numeric parsing are modelled as `Option.none`.
-/

namespace NestAuth

/-! ## `src/common/utils/time.util.ts` — duration-string parsing

The source matches the regular expression `(\d+)([smhd])` against the input
(unanchored, first match) and falls back to `parseInt(value, 10)` when there is
no match.  `regexNumUnit acc cs` scans `cs` for the first maximal digit run that
is immediately followed by one of the unit characters `s`, `m`, `h`, `d`,
returning the captured digit run and the unit character.  This is exactly the
first match of the regular expression: backtracking inside a digit run cannot
help, because a shortened run is followed by a digit, which is not a unit
character, so the regex engine's leftmost match is the first digit run whose
maximal extent is followed by a unit character. -/

def isUnitChar (c : Char) : Bool := c = 's' || c = 'm' || c = 'h' || c = 'd'

def regexNumUnit (acc : List Char) : List Char → Option (List Char × Char)
  | [] => none
  | c :: rest =>
    if c.isDigit then regexNumUnit (acc ++ [c]) rest
    else if acc ≠ [] ∧ isUnitChar c then some (acc, c)
    else regexNumUnit [] rest

/-- Numeric value of a digit run, as produced by JS `parseInt` on an all-digit
string. -/
def digitsVal (ds : List Char) : Nat :=
  ds.foldl (fun a c => 10 * a + (c.toNat - '0'.toNat)) 0

/-- Model of JS `parseInt(value, 10)` restricted to the inputs the duration
grammar admits: the value of the leading digit run, `none` (`NaN`) when the
string does not start with a digit. -/
def parseIntModel (s : String) : Option Nat :=
  let ds := s.data.takeWhile Char.isDigit
  if ds = [] then none else some (digitsVal ds)

/-- `parseExpiresToSeconds` from `src/common/utils/time.util.ts`.  `none` is the
JS `NaN` that the source returns when there is no regex match and `parseInt`
fails. -/
def parseExpiresToSeconds (value : String) : Option Nat :=
  match regexNumUnit [] value.data with
  | none => parseIntModel value
  | some (ds, unit) =>
    let amount := digitsVal ds
    if unit = 's' then some amount
    else if unit = 'm' then some (amount * 60)
    else if unit = 'h' then some (amount * 3600)
    else if unit = 'd' then some (amount * 86400)
    else some amount

/-- `parseExpiresToDays` from `src/common/utils/time.util.ts`.  The TS
declaration has `defaultValue: number = 7`; the embedding takes it explicitly
and call sites pass `7`.  Results are `ℚ` because the source divides JS
numbers. -/
def parseExpiresToDays (value : String) (defaultValue : ℚ) : ℚ :=
  match regexNumUnit [] value.data with
  | none =>
    match parseIntModel value with
    | none => defaultValue
    | some seconds => (seconds : ℚ) / 86400
  | some (ds, unit) =>
    let amount : ℚ := (digitsVal ds : ℚ)
    if unit = 's' then amount / 86400
    else if unit = 'm' then amount / 1440
    else if unit = 'h' then amount / 24
    else if unit = 'd' then amount
    else defaultValue

/-- Seconds denoted by one unit character of the duration grammar. -/
def unitSeconds (u : Char) : Nat :=
  if u = 's' then 1
  else if u = 'm' then 60
  else if u = 'h' then 3600
  else if u = 'd' then 86400
  else 1

/-- Modelled from the spec (§4.1, §4.4): the Token Codec is the JWT signer that
`AuthModule` registers with `signOptions.expiresIn =
configService.get('jwt.accessExpiresIn', '3600s')` (the signer itself is the
external `@nestjs/jwt` / `jsonwebtoken` library, not code of this repository).
On a duration string of the supported `<integer><unit>` grammar with unit in
{s, m, h, d} the codec embeds `exp = iat + lifetime` where the lifetime is the
integer times 1, 60, 3600 or 86400 seconds. -/
def codecLifetimeSeconds (ds : List Char) (u : Char) : Nat :=
  digitsVal ds * unitSeconds u

/-- `configService.get<string>(key, dflt)`: the configured value when present,
otherwise the default. -/
def configGet (cfg : String → Option String) (key dflt : String) : String :=
  match cfg key with
  | some v => v
  | none => dflt

/-- The duration string the `AuthModule` factory (part_011) hands to the JWT
signer: `configService.get<string>('jwt.accessExpiresIn', '3600s')`. -/
def authModuleAccessExpiresIn (cfg : String → Option String) : String :=
  configGet cfg "jwt.accessExpiresIn" "3600s"

/-! ## The Redis store model

`TokenService` keeps all mutable state in Redis under three key namespaces
with pairwise-disjoint literal key strings: refresh-token records
(keys formed by appending the token to the `refresh:` namespace string, value =
`JSON.stringify` of a `RefreshTokenData`, written only by `SETEX` in
`generateRefreshToken`), the per-user token index (`user:refresh_tokens:` +
userId, a Redis SET), and the blacklist (`blacklist:` + accessToken, value the
sentinel string "1").  Since the three namespace strings are pairwise
non-overlapping (no key of one namespace is also a key of another: the strings
start with distinct characters) and the suffix is recoverable from the key, the
keyspace partitions, and the store is modelled as three association lists keyed
by the suffixes.  JSON serialization round-trips the record, so record values
are stored structurally.  `SETEX` time-to-lives are kept with each entry;
`EXPIRE` on the index set key is a separate ttl table, as in Redis. -/

inductive AppRole
  | ADMIN
  | MANAGER
  | USER
deriving DecidableEq, Repr

/-- `RefreshTokenData` from token.service.ts.  Timestamps are fractional Unix
seconds (`DateTime.toSeconds()`), hence `ℚ`. -/
structure RefreshTokenData where
  userId : Nat
  role : AppRole
  expiresAt : ℚ
  createdAt : ℚ
  ipAddress : Option String
  userAgent : Option String
deriving DecidableEq, Repr

/-- A `SETEX`-written refresh-token record entry: remaining ttl and the
JSON-encoded record. -/
structure RefreshEntry where
  ttl : ℤ
  data : RefreshTokenData
deriving DecidableEq, Repr

structure RedisStore where
  /-- refresh-token namespace: token ↦ record entry. -/
  refresh : List (String × RefreshEntry)
  /-- per-user index namespace: userId ↦ SET of outstanding token strings. -/
  userTokens : List (Nat × List String)
  /-- `EXPIRE` ttls of the per-user index keys. -/
  userTokensTtl : List (Nat × ℤ)
  /-- blacklist namespace: accessToken ↦ ttl of the "1" marker. -/
  blacklist : List (String × ℤ)
deriving DecidableEq, Repr

/-- Association-list lookup. -/
def alookup {κ α : Type} [DecidableEq κ] (k : κ) : List (κ × α) → Option α
  | [] => none
  | (k', v) :: rest => if k = k' then some v else alookup k rest

/-- Association-list insert-or-replace. -/
def aset {κ α : Type} [DecidableEq κ] (k : κ) (v : α) : List (κ × α) → List (κ × α)
  | [] => [(k, v)]
  | (k', v') :: rest => if k = k' then (k, v) :: rest else (k', v') :: aset k v rest

/-- Association-list key removal. -/
def aerase {κ α : Type} [DecidableEq κ] (k : κ) : List (κ × α) → List (κ × α)
  | [] => []
  | (k', v') :: rest => if k = k' then aerase k rest else (k', v') :: aerase k rest

/-- The whole mutable state of a run: the Redis store, a fault schedule (one
entry per store call; `true` makes that call raise, the empty schedule is a
fault-free store), and the `crypto.randomUUID` supply (a stream of fresh token
strings with a cursor). -/
structure St where
  store : RedisStore
  faults : List Bool
  uuidStream : Nat → String
  uuidIdx : Nat

/-- Errors of the embedded services: a store communication failure, NestJS
`UnauthorizedException` with its i18n message key, and the
`NotFoundException` thrown by `BaseService.findOne`. -/
inductive AppError
  | storeError
  | unauthorized (message : String)
  | notFound
deriving DecidableEq, Repr

/-- The effect monad of the embedding: state plus JS exceptions.  A raised
error keeps the state mutated so far, exactly as an `await` rejection does. -/
def TokenM (α : Type) : Type := St → Except AppError α × St

def mpure {α : Type} (a : α) : TokenM α := fun s => (Except.ok a, s)

def mbind {α β : Type} (m : TokenM α) (f : α → TokenM β) : TokenM β := fun s =>
  match m s with
  | (Except.ok a, s') => f a s'
  | (Except.error e, s') => (Except.error e, s')

def mthrow {α : Type} (e : AppError) : TokenM α := fun s => (Except.error e, s)

/-- `try { m } catch (e) { handler e }`. -/
def mcatch {α : Type} (m : TokenM α) (handler : AppError → TokenM α) : TokenM α := fun s =>
  match m s with
  | (Except.ok a, s') => (Except.ok a, s')
  | (Except.error e, s') => handler e s'

/-- One Redis client call: consumes one fault-schedule entry (an empty schedule
never faults); on a fault the call raises and the store is untouched. -/
def redisOp {α : Type} (f : RedisStore → α × RedisStore) : TokenM α := fun s =>
  match s.faults with
  | [] =>
    let r := f s.store
    (Except.ok r.1, { s with store := r.2 })
  | b :: rest =>
    if b then (Except.error AppError.storeError, { s with faults := rest })
    else
      let r := f s.store
      (Except.ok r.1, { s with store := r.2, faults := rest })

/-- Store effect of `SETEX` on a refresh-token key. -/
def storeSetexRefresh (token : String) (ttl : ℤ) (d : RefreshTokenData)
    (st : RedisStore) : RedisStore :=
  { st with refresh := aset token ⟨ttl, d⟩ st.refresh }

/-- Store effect of `DEL` on a refresh-token key. -/
def storeDelRefresh (token : String) (st : RedisStore) : RedisStore :=
  { st with refresh := aerase token st.refresh }

/-- Store effect of `SADD` (sets ignore duplicate members and are created on
first add). -/
def storeSadd (userId : Nat) (token : String) (st : RedisStore) : RedisStore :=
  let cur := (alookup userId st.userTokens).getD []
  let cur' := if token ∈ cur then cur else cur ++ [token]
  { st with userTokens := aset userId cur' st.userTokens }

/-- Store effect of `SREM`: removes the member; removing the last member
deletes the key (Redis drops empty sets); no-op on a missing key. -/
def storeSrem (userId : Nat) (token : String) (st : RedisStore) : RedisStore :=
  match alookup userId st.userTokens with
  | none => st
  | some cur =>
    let cur' := cur.filter (fun x => x ≠ token)
    if cur' = [] then
      { st with userTokens := aerase userId st.userTokens,
                userTokensTtl := aerase userId st.userTokensTtl }
    else { st with userTokens := aset userId cur' st.userTokens }

/-- Store effect of `DEL` on a user's index-set key. -/
def storeDelUserTokens (userId : Nat) (st : RedisStore) : RedisStore :=
  { st with userTokens := aerase userId st.userTokens,
            userTokensTtl := aerase userId st.userTokensTtl }

/-- Store effect of `EXPIRE` on a user's index-set key (no-op on a missing
key). -/
def storeExpireUserTokens (userId : Nat) (ttl : ℤ) (st : RedisStore) : RedisStore :=
  match alookup userId st.userTokens with
  | none => st
  | some _ => { st with userTokensTtl := aset userId ttl st.userTokensTtl }

/-- Store effect of `SETEX` on a blacklist key (the value is always the
sentinel "1", so only the ttl is recorded). -/
def storeSetexBlacklist (token : String) (ttl : ℤ) (st : RedisStore) : RedisStore :=
  { st with blacklist := aset token ttl st.blacklist }

/-- `redisClient.get` on a refresh-token key followed by `JSON.parse`: the only
writer of this namespace stores JSON-encoded records, so get-plus-parse yields
the record (or `null` when the key is absent). -/
def redisGetRefresh (token : String) : TokenM (Option RefreshTokenData) :=
  redisOp (fun st => ((alookup token st.refresh).map RefreshEntry.data, st))

/-- `redisClient.setex` on a refresh-token key. -/
def redisSetexRefresh (token : String) (ttl : ℤ) (d : RefreshTokenData) : TokenM Unit :=
  redisOp (fun st => ((), storeSetexRefresh token ttl d st))

/-- `redisClient.del` on a refresh-token key. -/
def redisDelRefresh (token : String) : TokenM Unit :=
  redisOp (fun st => ((), storeDelRefresh token st))

/-- `redisClient.sadd` on a user's index-set key. -/
def redisSadd (userId : Nat) (token : String) : TokenM Unit :=
  redisOp (fun st => ((), storeSadd userId token st))

/-- `redisClient.srem` on a user's index-set key. -/
def redisSrem (userId : Nat) (token : String) : TokenM Unit :=
  redisOp (fun st => ((), storeSrem userId token st))

/-- `redisClient.smembers` (empty list for a missing key). -/
def redisSmembers (userId : Nat) : TokenM (List String) :=
  redisOp (fun st => ((alookup userId st.userTokens).getD [], st))

/-- `redisClient.del` on a user's index-set key. -/
def redisDelUserTokens (userId : Nat) : TokenM Unit :=
  redisOp (fun st => ((), storeDelUserTokens userId st))

/-- `redisClient.expire` on a user's index-set key. -/
def redisExpireUserTokens (userId : Nat) (ttl : ℤ) : TokenM Unit :=
  redisOp (fun st => ((), storeExpireUserTokens userId ttl st))

/-- `redisClient.setex` on a blacklist key. -/
def redisSetexBlacklist (token : String) (ttl : ℤ) : TokenM Unit :=
  redisOp (fun st => ((), storeSetexBlacklist token ttl st))

/-- `redisClient.exists` on a blacklist key, already compared against 1. -/
def redisExistsBlacklist (token : String) : TokenM Bool :=
  redisOp (fun st => ((alookup token st.blacklist).isSome, st))

/-- Model of `crypto.randomUUID()`: pulls the next string off the stream.  Not
a store call, so it cannot fault. -/
def freshUUID : TokenM String := fun s =>
  (Except.ok (s.uuidStream s.uuidIdx), { s with uuidIdx := s.uuidIdx + 1 })

/-! ## `TokenService` (token.service.ts) -/

/-- The two duration values the `TokenService` constructor parses from
configuration: `parseExpiresToDays(jwt.refreshExpiresIn ?? '7d')` and
`parseExpiresToSeconds(jwt.accessExpiresIn ?? '3600s')`. -/
structure TokenConfig where
  refreshTokenExpirationDays : ℚ
  accessTokenExpirationSeconds : ℤ
deriving DecidableEq, Repr

/-- The optional `{ ipAddress?, userAgent? }` argument. -/
structure TokenGenOptions where
  ipAddress : Option String
  userAgent : Option String
deriving DecidableEq, Repr

/-- `TokenService.generateRefreshToken`.  `now` is the clock value of the two
`DateTime.now()` calls of this method (same instant);
`expiresAt = now.plus({days})` adds `days * 86400` seconds;
`ttlSeconds = Math.floor(expiresAtUnix - createdAtUnix)`. -/
def generateRefreshToken (cfg : TokenConfig) (now : ℚ) (userId : Nat) (role : AppRole)
    (options : Option TokenGenOptions) : TokenM String :=
  mbind freshUUID (fun refreshToken =>
    let expiresAtUnix : ℚ := now + cfg.refreshTokenExpirationDays * 86400
    let createdAtUnix : ℚ := now
    let tokenData : RefreshTokenData :=
      { userId := userId, role := role, expiresAt := expiresAtUnix,
        createdAt := createdAtUnix,
        ipAddress := options.bind TokenGenOptions.ipAddress,
        userAgent := options.bind TokenGenOptions.userAgent }
    let ttlSeconds : ℤ := Int.floor (expiresAtUnix - createdAtUnix)
    mbind (redisSetexRefresh refreshToken ttlSeconds tokenData) (fun _ =>
      mbind (redisSadd userId refreshToken) (fun _ =>
        mbind (redisExpireUserTokens userId ttlSeconds) (fun _ =>
          mpure refreshToken))))

/-- `TokenService.revokeRefreshToken`: `try { get; if found { srem; del } }
catch { log }`. -/
def revokeRefreshToken (refreshToken : String) : TokenM Unit :=
  mcatch
    (mbind (redisGetRefresh refreshToken) (fun tokenDataStr =>
      match tokenDataStr with
      | some tokenData =>
        mbind (redisSrem tokenData.userId refreshToken) (fun _ =>
          redisDelRefresh refreshToken)
      | none => mpure ()))
    (fun _ => mpure ())

/-- `TokenService.verifyRefreshToken`: `try { get; null if absent; if
expiresAt < now { revoke; null }; return data } catch { log; null }`.  `now` is
the `DateTime.now().toSeconds()` of this call. -/
def verifyRefreshToken (now : ℚ) (refreshToken : String) : TokenM (Option RefreshTokenData) :=
  mcatch
    (mbind (redisGetRefresh refreshToken) (fun tokenDataStr =>
      match tokenDataStr with
      | none => mpure none
      | some tokenData =>
        if tokenData.expiresAt < now then
          mbind (revokeRefreshToken refreshToken) (fun _ => mpure none)
        else mpure (some tokenData)))
    (fun _ => mpure none)

/-- The `for`-loop of `revokeUserRefreshTokens` deleting every member's record
(the source collects the `del` promises and awaits them together; the deletions
are modelled in list order). -/
def delRefreshEach : List String → TokenM Unit
  | [] => mpure ()
  | t :: rest => mbind (redisDelRefresh t) (fun _ => delRefreshEach rest)

/-- Cumulative store effect of `delRefreshEach` (used to state its fault-free
run). -/
def storeEraseRefreshAll : List String → RedisStore → RedisStore
  | [], st => st
  | t :: rest, st => storeEraseRefreshAll rest (storeDelRefresh t st)

/-- `TokenService.revokeUserRefreshTokens`: `try { smembers; return if empty;
del every member's record; del the set } catch { log }`. -/
def revokeUserRefreshTokens (userId : Nat) : TokenM Unit :=
  mcatch
    (mbind (redisSmembers userId) (fun refreshTokens =>
      if refreshTokens = [] then mpure ()
      else
        mbind (delRefreshEach refreshTokens) (fun _ => redisDelUserTokens userId)))
    (fun _ => mpure ())

/-- `TokenService.blacklistAccessToken`.  `decodeExp` models
`jwtService.decode` (no signature check): `some e` when the payload decodes
with an `exp` claim of value `e`, `none` when the token does not decode or has
no `exp` claim; the JS truthiness test `payload?.exp` additionally sends
`exp = 0` to the default branch.  `nowSec` is `Math.floor(Date.now() / 1000)`.
The inner `catch` retries with the default ttl; the outer `catch` swallows. -/
def blacklistAccessToken (cfg : TokenConfig) (decodeExp : String → Option ℤ) (nowSec : ℤ)
    (accessToken : String) : TokenM Unit :=
  mcatch
    (mcatch
      (match decodeExp accessToken with
       | some e =>
         if e ≠ 0 then
           let ttl := e - nowSec
           if ttl > 0 then redisSetexBlacklist accessToken ttl
           else mpure ()
         else redisSetexBlacklist accessToken cfg.accessTokenExpirationSeconds
       | none => redisSetexBlacklist accessToken cfg.accessTokenExpirationSeconds)
      (fun _ => redisSetexBlacklist accessToken cfg.accessTokenExpirationSeconds))
    (fun _ => mpure ())

/-- `TokenService.isAccessTokenBlacklisted`: `try { exists === 1 } catch {
log; false }`. -/
def isAccessTokenBlacklisted (accessToken : String) : TokenM Bool :=
  mcatch
    (mbind (redisExistsBlacklist accessToken) (fun ex => mpure ex))
    (fun _ => mpure false)

/-- `TokenService.logout`: blacklist the access token, then revoke all of the
user's refresh tokens. -/
def serviceLogout (cfg : TokenConfig) (decodeExp : String → Option ℤ) (nowSec : ℤ)
    (userId : Nat) (accessToken : String) : TokenM Unit :=
  mbind (blacklistAccessToken cfg decodeExp nowSec accessToken) (fun _ =>
    revokeUserRefreshTokens userId)

/-! ## `AuthService` (auth.service.ts) and `JwtStrategy` (jwt.strategy.ts) -/

/-- The external collaborators of `AuthService`: the user table behind
`UsersService` (id ↦ role, for `findByPk`), the JWT signer
(`jwtService.signAsync`, a pure function of the secret, payload and clock) and
the configuration. -/
structure AuthEnv where
  users : List (Nat × AppRole)
  sign : Nat → AppRole → String
  config : String → Option String

/-- `UsersService.findOne` = `BaseService.findOne`: `findByPk`, throwing
`NotFoundException` when the entity is absent — it never returns `null`. -/
def usersFindOne (env : AuthEnv) (id : Nat) : TokenM (Nat × AppRole) := fun s =>
  match alookup id env.users with
  | some role => (Except.ok (id, role), s)
  | none => (Except.error AppError.notFound, s)

structure TokenPairDto where
  accessToken : String
  refreshToken : String
  expiresIn : Option Nat
deriving DecidableEq, Repr

structure AuthResponseDto where
  tokens : TokenPairDto
deriving DecidableEq, Repr

/-- `AuthService.issueTokens`: sign an access token, generate and store a
refresh token, and report `expiresIn =
parseExpiresToSeconds(configService.get('jwt.accessExpiresIn', '3600s'))`. -/
def issueTokens (cfg : TokenConfig) (env : AuthEnv) (now : ℚ) (userId : Nat) (role : AppRole)
    (options : Option TokenGenOptions) : TokenM AuthResponseDto :=
  let accessToken := env.sign userId role
  mbind (generateRefreshToken cfg now userId role options) (fun refreshToken =>
    let accessExpiresIn := configGet env.config "jwt.accessExpiresIn" "3600s"
    let expiresIn := parseExpiresToSeconds accessExpiresIn
    mpure { tokens := { accessToken := accessToken, refreshToken := refreshToken,
                        expiresIn := expiresIn } })

/-- The tail of `AuthService.refreshToken` after the presented token verified
to `tokenData`: resolve the user (`findOne` throws `NotFoundException` when the
user is gone, so the subsequent `if (!user)` guard of the source is
unreachable), revoke the presented token, issue a fresh pair. -/
def authRefreshRest (cfg : TokenConfig) (env : AuthEnv) (now : ℚ) (refreshToken : String)
    (tokenData : RefreshTokenData) (options : Option TokenGenOptions) : TokenM AuthResponseDto :=
  mbind (usersFindOne env tokenData.userId) (fun user =>
    mbind (revokeRefreshToken refreshToken) (fun _ =>
      issueTokens cfg env now user.1 user.2 options))

/-- `AuthService.refreshToken` (refresh-token rotation): verify the presented
token, throw `UnauthorizedException(auth.invalid_refresh_token)` when invalid,
then resolve the user, revoke the old token and issue new tokens. -/
def authRefreshToken (cfg : TokenConfig) (env : AuthEnv) (now : ℚ) (refreshToken : String)
    (options : Option TokenGenOptions) : TokenM AuthResponseDto :=
  mbind (verifyRefreshToken now refreshToken) (fun tokenData =>
    match tokenData with
    | none => mthrow (AppError.unauthorized "auth.invalid_refresh_token")
    | some d => authRefreshRest cfg env now refreshToken d options)

/-- Outcome of authenticating one inbound bearer-token request. -/
inductive RequestAuthResult
  | unauthorizedMissing
  | unauthorizedInvalid
  | unauthorizedRevoked
  | userNotFound
  | storeFailed
  | ok (userId : Nat) (role : AppRole)
deriving DecidableEq, Repr

/-- The request-time authentication flow around `JwtStrategy`.  The strategy
registers `passport-jwt` with bearer-header extraction, the configured secret
and `ignoreExpiration: false`; the framework therefore verifies the token's
signature and claims first and only invokes `JwtStrategy.validate` with the
decoded payload on success (`codecVerify` abstracts that verdict: the payload's
`sub` for a valid token, `none` for a failed verification).  `validate`
re-extracts the token with the same extractor (hence the same result, so its
`TOKEN_MISSING` guard cannot fire on this path), checks the blacklist and
throws `UnauthorizedException(auth.token_revoked)` on a hit, then resolves the
subject through `userRepository.findOne`, which throws `NotFoundException` when
the user is absent. -/
def requestAuth (env : AuthEnv) (codecVerify : String → Option Nat)
    (bearer : Option String) : TokenM RequestAuthResult :=
  match bearer with
  | none => mpure RequestAuthResult.unauthorizedMissing
  | some token =>
    match codecVerify token with
    | none => mpure RequestAuthResult.unauthorizedInvalid
    | some sub =>
      mbind (isAccessTokenBlacklisted token) (fun isB =>
        if isB then mpure RequestAuthResult.unauthorizedRevoked
        else
          match alookup sub env.users with
          | some role => mpure (RequestAuthResult.ok sub role)
          | none => mpure RequestAuthResult.userNotFound)

/-! ## Concrete fixtures for witnesses and counterexamples -/

/-- An empty Redis store. -/
def emptyStore : RedisStore := ⟨[], [], [], []⟩

/-- `TokenConfig` of the documented defaults: 7-day refresh lifetime,
3600-second access lifetime. -/
def cfg0 : TokenConfig := ⟨7, 3600⟩

/-- A user table with one user (id 1, role USER), a deterministic signer and a
configuration with `jwt.accessExpiresIn = 1h`. -/
def env0 : AuthEnv :=
  ⟨[(1, AppRole.USER)], fun _ _ => "signed.jwt",
   fun k => if k = "jwt.accessExpiresIn" then some "1h" else none⟩

/-- A stored refresh-token record of user 1 expiring at Unix second 100. -/
def data0 : RefreshTokenData := ⟨1, AppRole.USER, 100, 0, none, none⟩

/-- Like `env0` but with an empty user table: every user lookup throws
`NotFoundException`. -/
def env1 : AuthEnv :=
  ⟨[], fun _ _ => "signed.jwt",
   fun k => if k = "jwt.accessExpiresIn" then some "1h" else none⟩

/-- A store holding the record `data0` under token "t0", indexed for user 1. -/
def store0 : RedisStore := ⟨[("t0", ⟨100, data0⟩)], [(1, ["t0"])], [(1, 100)], []⟩

/-- A `randomUUID` supply producing "fresh0" then "fresh1"; neither collides
with the stored token "t0". -/
def uuidTwo : Nat → String := fun n => if n = 0 then "fresh0" else "fresh1"

theorem isUnitChar_not_digit {u : Char} (h : isUnitChar u) : u.isDigit = false := by
  simp only [isUnitChar] at h
  rcases Bool.or_eq_true_iff.mp h with h | h
  · rcases Bool.or_eq_true_iff.mp h with h | h
    · rcases Bool.or_eq_true_iff.mp h with h | h
      all_goals simp_all [decide_eq_true_eq, Char.isDigit]
    · simp_all [decide_eq_true_eq, Char.isDigit]
  · simp_all [decide_eq_true_eq, Char.isDigit]

theorem regexNumUnit_digits_unit (acc : List Char) (ds : List Char) (u : Char)
    (hds : ∀ c ∈ ds, c.isDigit) (hu : isUnitChar u) (hne : acc ++ ds ≠ []) :
    regexNumUnit acc (ds ++ [u]) = some (acc ++ ds, u) := by
  induction ds generalizing acc with
  | nil =>
    simp only [List.nil_append, List.append_nil] at hne ⊢
    simp [regexNumUnit, isUnitChar_not_digit hu, hne, hu]
  | cons c rest ih =>
    have hc : c.isDigit := hds c (List.mem_cons_self c rest)
    have hrest : ∀ x ∈ rest, x.isDigit := fun x hx => hds x (List.mem_cons_of_mem c hx)
    have : regexNumUnit acc ((c :: rest) ++ [u]) = regexNumUnit (acc ++ [c]) (rest ++ [u]) := by
      simp [regexNumUnit, hc]
    rw [this, ih (acc ++ [c]) hrest (by simp)]
    simp

theorem regexNumUnit_all_digits (acc : List Char) (ds : List Char)
    (hds : ∀ c ∈ ds, c.isDigit) :
    regexNumUnit acc ds = none := by
  induction ds generalizing acc with
  | nil => simp [regexNumUnit]
  | cons c rest ih =>
    have hc : c.isDigit := hds c (List.mem_cons_self c rest)
    have hrest : ∀ x ∈ rest, x.isDigit := fun x hx => hds x (List.mem_cons_of_mem c hx)
    simp [regexNumUnit, hc, ih (acc ++ [c]) hrest]

theorem parseExpiresToSeconds_unit (ds : List Char) (u : Char)
    (hne : ds ≠ []) (hds : ∀ c ∈ ds, c.isDigit) (hu : isUnitChar u) :
    parseExpiresToSeconds (String.mk (ds ++ [u])) = some (digitsVal ds * unitSeconds u) := by
  have hm : regexNumUnit [] (ds ++ [u]) = some (ds, u) := by
    simpa using regexNumUnit_digits_unit [] ds u hds hu (by simpa using hne)
  simp only [parseExpiresToSeconds, String.data, hm, unitSeconds]
  rcases Bool.or_eq_true_iff.mp hu with h | h
  · rcases Bool.or_eq_true_iff.mp h with h | h
    · rcases Bool.or_eq_true_iff.mp h with h | h
      · have : u = 's' := by simpa [decide_eq_true_eq] using h
        simp [this]
      · have : u = 'm' := by simpa [decide_eq_true_eq] using h
        simp [this]
    · have : u = 'h' := by simpa [decide_eq_true_eq] using h
      simp [this]
  · have : u = 'd' := by simpa [decide_eq_true_eq] using h
    simp [this]

theorem parseExpiresToSeconds_bare (ds : List Char)
    (hne : ds ≠ []) (hds : ∀ c ∈ ds, c.isDigit) :
    parseExpiresToSeconds (String.mk ds) = some (digitsVal ds) := by
  have hm : regexNumUnit [] ds = none := regexNumUnit_all_digits [] ds hds
  have htake : ds.takeWhile Char.isDigit = ds := List.takeWhile_eq_self_iff.mpr hds
  simp [parseExpiresToSeconds, parseIntModel, hm, htake, hne]

theorem parseExpiresToDays_unit (ds : List Char) (u : Char) (d : ℚ)
    (hne : ds ≠ []) (hds : ∀ c ∈ ds, c.isDigit) (hu : isUnitChar u) :
    parseExpiresToDays (String.mk (ds ++ [u])) d * 86400
      = (digitsVal ds * unitSeconds u : ℚ) := by
  have hm : regexNumUnit [] (ds ++ [u]) = some (ds, u) := by
    simpa using regexNumUnit_digits_unit [] ds u hds hu (by simpa using hne)
  simp only [parseExpiresToDays, String.data, hm, unitSeconds]
  rcases Bool.or_eq_true_iff.mp hu with h | h
  · rcases Bool.or_eq_true_iff.mp h with h | h
    · rcases Bool.or_eq_true_iff.mp h with h | h
      · have : u = 's' := by simpa [decide_eq_true_eq] using h
        simp [this]
        try ring
      · have : u = 'm' := by simpa [decide_eq_true_eq] using h
        simp [this]
        try ring
    · have : u = 'h' := by simpa [decide_eq_true_eq] using h
      simp [this]
      try ring
  · have : u = 'd' := by simpa [decide_eq_true_eq] using h
    simp [this]
    try ring

theorem parseExpiresToDays_bare (ds : List Char) (d : ℚ)
    (hne : ds ≠ []) (hds : ∀ c ∈ ds, c.isDigit) :
    parseExpiresToDays (String.mk ds) d * 86400 = (digitsVal ds : ℚ) := by
  have hm : regexNumUnit [] ds = none := regexNumUnit_all_digits [] ds hds
  have htake : ds.takeWhile Char.isDigit = ds := List.takeWhile_eq_self_iff.mpr hds
  simp only [parseExpiresToDays, String.data, hm, parseIntModel, htake]
  simp [hne]
  try ring

end NestAuth

/-- C9 Duration grammar semantics: on `<integer><unit>` strings with unit in
{s, m, h, d}, `parseExpiresToSeconds` returns the integer times 1, 60, 3600 or
86400; a bare integer string is returned as seconds; and `parseExpiresToDays`
agrees with it up to the factor 86400 on both forms. -/
theorem C9_duration_grammar (ds : List Char) (u : Char)
    (hne : ds ≠ []) (hds : ∀ c ∈ ds, c.isDigit) (hu : NestAuth.isUnitChar u) :
    NestAuth.parseExpiresToSeconds (String.mk (ds ++ [u]))
        = some (NestAuth.digitsVal ds * NestAuth.unitSeconds u)
    ∧ NestAuth.parseExpiresToSeconds (String.mk ds) = some (NestAuth.digitsVal ds)
    ∧ NestAuth.parseExpiresToDays (String.mk (ds ++ [u])) 7 * 86400
        = (NestAuth.digitsVal ds * NestAuth.unitSeconds u : ℚ)
    ∧ NestAuth.parseExpiresToDays (String.mk ds) 7 * 86400 = (NestAuth.digitsVal ds : ℚ) :=
  ⟨NestAuth.parseExpiresToSeconds_unit ds u hne hds hu,
   NestAuth.parseExpiresToSeconds_bare ds hne hds,
   NestAuth.parseExpiresToDays_unit ds u 7 hne hds hu,
   NestAuth.parseExpiresToDays_bare ds 7 hne hds⟩

/-- C9 witness: the grammar semantics evaluated at the concrete duration
string "90m" and at the bare string "3600". -/
theorem C9_duration_grammar_witness :
    NestAuth.parseExpiresToSeconds (String.mk (['9', '0'] ++ ['m'])) = some 5400
    ∧ NestAuth.parseExpiresToSeconds (String.mk ['9', '0']) = some 90 := by
  have h := C9_duration_grammar ['9', '0'] 'm' (by decide) (by decide) (by decide)
  refine ⟨?_, ?_⟩
  · rw [h.1]
    decide
  · rw [h.2.1]
    decide

namespace NestAuth

theorem alookup_aset_self {κ α : Type} [DecidableEq κ] (k : κ) (v : α) (l : List (κ × α)) :
    alookup k (aset k v l) = some v := by
  induction l with
  | nil => simp [alookup, aset]
  | cons p rest ih =>
    by_cases h : k = p.1
    · simp [alookup, aset, h]
    · simp [alookup, aset, h, ih]

theorem alookup_aset_ne {κ α : Type} [DecidableEq κ] {k k' : κ} (v : α) (l : List (κ × α))
    (h : k ≠ k') : alookup k (aset k' v l) = alookup k l := by
  induction l with
  | nil => simp [alookup, aset, h]
  | cons p rest ih =>
    by_cases h2 : k' = p.1
    · simp [alookup, aset, h2, h]
      subst h2
      simp [alookup, h]
    · simp only [aset, if_neg h2]
      by_cases h3 : k = p.1
      · simp [alookup, h3]
      · simp [alookup, h3, ih]

theorem alookup_aerase_self {κ α : Type} [DecidableEq κ] (k : κ) (l : List (κ × α)) :
    alookup k (aerase k l) = none := by
  induction l with
  | nil => simp [alookup, aerase]
  | cons p rest ih =>
    by_cases h : k = p.1
    · subst h
      simp [aerase, ih]
    · simp [alookup, aerase, h, ih]

theorem alookup_aerase_ne {κ α : Type} [DecidableEq κ] {k k' : κ} (l : List (κ × α))
    (h : k ≠ k') : alookup k (aerase k' l) = alookup k l := by
  induction l with
  | nil => simp [alookup, aerase]
  | cons p rest ih =>
    by_cases h2 : k' = p.1
    · subst h2
      simp [aerase, alookup, h, ih]
    · by_cases h3 : k = p.1
      · simp [aerase, alookup, h2, h3]
      · simp [aerase, alookup, h2, h3, ih]

theorem revoke_ff (t : String) (store : RedisStore) (us : Nat → String) (idx : Nat) :
    revokeRefreshToken t ⟨store, [], us, idx⟩ =
      (Except.ok (),
       ⟨match alookup t store.refresh with
        | none => store
        | some e => storeDelRefresh t (storeSrem e.data.userId t store), [], us, idx⟩) := by
  cases h : alookup t store.refresh with
  | none => simp [revokeRefreshToken, mcatch, mbind, mpure, redisGetRefresh, redisSrem,
      redisDelRefresh, redisOp, h]
  | some e => simp [revokeRefreshToken, mcatch, mbind, mpure, redisGetRefresh, redisSrem,
      redisDelRefresh, redisOp, h]

theorem verify_ff (now : ℚ) (t : String) (store : RedisStore) (us : Nat → String) (idx : Nat) :
    verifyRefreshToken now t ⟨store, [], us, idx⟩ =
      (Except.ok (match alookup t store.refresh with
                  | none => none
                  | some e => if e.data.expiresAt < now then none else some e.data),
       ⟨match alookup t store.refresh with
        | none => store
        | some e =>
          if e.data.expiresAt < now then storeDelRefresh t (storeSrem e.data.userId t store)
          else store, [], us, idx⟩) := by
  cases h : alookup t store.refresh with
  | none => simp [verifyRefreshToken, mcatch, mbind, mpure, redisGetRefresh, redisOp, h]
  | some e =>
    by_cases hexp : e.data.expiresAt < now
    · simp [verifyRefreshToken, mcatch, mbind, mpure, redisGetRefresh, redisOp, h, hexp,
        revoke_ff]
    · simp [verifyRefreshToken, mcatch, mbind, mpure, redisGetRefresh, redisOp, h, hexp]

end NestAuth

namespace NestAuth

theorem delEach_ff (ts : List String) (store : RedisStore) (us : Nat → String) (idx : Nat) :
    delRefreshEach ts ⟨store, [], us, idx⟩ =
      (Except.ok (), ⟨storeEraseRefreshAll ts store, [], us, idx⟩) := by
  induction ts generalizing store with
  | nil => rfl
  | cons t rest ih =>
    simp [delRefreshEach, mbind, redisDelRefresh, redisOp, storeEraseRefreshAll, ih]

theorem revokeUser_ff (uid : Nat) (store : RedisStore) (us : Nat → String) (idx : Nat) :
    revokeUserRefreshTokens uid ⟨store, [], us, idx⟩ =
      (Except.ok (),
       ⟨(fun members => if members = [] then store
           else storeDelUserTokens uid (storeEraseRefreshAll members store))
         ((alookup uid store.userTokens).getD []), [], us, idx⟩) := by
  by_cases h : (alookup uid store.userTokens).getD [] = []
  · simp [revokeUserRefreshTokens, mcatch, mbind, mpure, redisSmembers, redisOp, h]
  · simp [revokeUserRefreshTokens, mcatch, mbind, mpure, redisSmembers, redisDelUserTokens,
      redisOp, h, delEach_ff]

theorem blacklist_ff (cfg : TokenConfig) (dec : String → Option ℤ) (nowSec : ℤ) (tok : String)
    (store : RedisStore) (us : Nat → String) (idx : Nat) :
    blacklistAccessToken cfg dec nowSec tok ⟨store, [], us, idx⟩ =
      (Except.ok (),
       ⟨match dec tok with
        | some e =>
          if e ≠ 0 then
            (if e - nowSec > 0 then storeSetexBlacklist tok (e - nowSec) store else store)
          else storeSetexBlacklist tok cfg.accessTokenExpirationSeconds store
        | none => storeSetexBlacklist tok cfg.accessTokenExpirationSeconds store,
        [], us, idx⟩) := by
  cases h : dec tok with
  | none => simp [blacklistAccessToken, mcatch, mbind, mpure, redisSetexBlacklist, redisOp, h]
  | some e =>
    by_cases h0 : e = 0
    · simp [blacklistAccessToken, mcatch, mbind, mpure, redisSetexBlacklist, redisOp, h, h0]
    · by_cases hp : e - nowSec > 0
      · simp [blacklistAccessToken, mcatch, mbind, mpure, redisSetexBlacklist, redisOp, h,
          h0, hp]
      · simp [blacklistAccessToken, mcatch, mbind, mpure, redisSetexBlacklist, redisOp, h,
          h0, hp]

theorem isBlacklisted_ff (tok : String) (store : RedisStore) (us : Nat → String) (idx : Nat) :
    isAccessTokenBlacklisted tok ⟨store, [], us, idx⟩ =
      (Except.ok (alookup tok store.blacklist).isSome, ⟨store, [], us, idx⟩) := by
  simp [isAccessTokenBlacklisted, mcatch, mbind, mpure, redisExistsBlacklist, redisOp]

theorem generate_ff (cfg : TokenConfig) (now : ℚ) (uid : Nat) (role : AppRole)
    (opts : Option TokenGenOptions) (store : RedisStore) (us : Nat → String) (idx : Nat) :
    generateRefreshToken cfg now uid role opts ⟨store, [], us, idx⟩ =
      (Except.ok (us idx),
       ⟨storeExpireUserTokens uid (Int.floor (now + cfg.refreshTokenExpirationDays * 86400 - now))
          (storeSadd uid (us idx)
            (storeSetexRefresh (us idx)
              (Int.floor (now + cfg.refreshTokenExpirationDays * 86400 - now))
              { userId := uid, role := role,
                expiresAt := now + cfg.refreshTokenExpirationDays * 86400, createdAt := now,
                ipAddress := opts.bind TokenGenOptions.ipAddress,
                userAgent := opts.bind TokenGenOptions.userAgent } store)),
        [], us, idx + 1⟩) := by
  simp [generateRefreshToken, mbind, mpure, freshUUID, redisSetexRefresh, redisSadd,
    redisExpireUserTokens, redisOp]

theorem issueTokens_ff (cfg : TokenConfig) (env : AuthEnv) (now : ℚ) (uid : Nat)
    (role : AppRole) (opts : Option TokenGenOptions) (store : RedisStore) (us : Nat → String)
    (idx : Nat) :
    issueTokens cfg env now uid role opts ⟨store, [], us, idx⟩ =
      (Except.ok
        { tokens :=
            { accessToken := env.sign uid role, refreshToken := us idx,
              expiresIn :=
                parseExpiresToSeconds (configGet env.config "jwt.accessExpiresIn" "3600s") } },
       ⟨storeExpireUserTokens uid (Int.floor (now + cfg.refreshTokenExpirationDays * 86400 - now))
          (storeSadd uid (us idx)
            (storeSetexRefresh (us idx)
              (Int.floor (now + cfg.refreshTokenExpirationDays * 86400 - now))
              { userId := uid, role := role,
                expiresAt := now + cfg.refreshTokenExpirationDays * 86400, createdAt := now,
                ipAddress := opts.bind TokenGenOptions.ipAddress,
                userAgent := opts.bind TokenGenOptions.userAgent } store)),
        [], us, idx + 1⟩) := by
  simp [issueTokens, mbind, mpure, generate_ff]

end NestAuth

namespace NestAuth

theorem storeSrem_refresh (u : Nat) (tok : String) (st : RedisStore) :
    (storeSrem u tok st).refresh = st.refresh := by
  unfold storeSrem
  cases alookup u st.userTokens with
  | none => rfl
  | some cur =>
    simp only []
    split
    · rfl
    · rfl

theorem storeSrem_blacklist (u : Nat) (tok : String) (st : RedisStore) :
    (storeSrem u tok st).blacklist = st.blacklist := by
  unfold storeSrem
  cases alookup u st.userTokens with
  | none => rfl
  | some cur =>
    simp only []
    split
    · rfl
    · rfl

theorem storeSadd_refresh (u : Nat) (tok : String) (st : RedisStore) :
    (storeSadd u tok st).refresh = st.refresh := rfl

theorem storeSadd_blacklist (u : Nat) (tok : String) (st : RedisStore) :
    (storeSadd u tok st).blacklist = st.blacklist := rfl

theorem storeExpireUserTokens_refresh (u : Nat) (ttl : ℤ) (st : RedisStore) :
    (storeExpireUserTokens u ttl st).refresh = st.refresh := by
  unfold storeExpireUserTokens
  cases alookup u st.userTokens with
  | none => rfl
  | some cur => rfl

theorem storeExpireUserTokens_blacklist (u : Nat) (ttl : ℤ) (st : RedisStore) :
    (storeExpireUserTokens u ttl st).blacklist = st.blacklist := by
  unfold storeExpireUserTokens
  cases alookup u st.userTokens with
  | none => rfl
  | some cur => rfl

theorem storeDelRefresh_refresh (tok : String) (st : RedisStore) :
    (storeDelRefresh tok st).refresh = aerase tok st.refresh := rfl

theorem storeDelRefresh_blacklist (tok : String) (st : RedisStore) :
    (storeDelRefresh tok st).blacklist = st.blacklist := rfl

theorem storeDelRefresh_userTokens (tok : String) (st : RedisStore) :
    (storeDelRefresh tok st).userTokens = st.userTokens := rfl

theorem storeDelUserTokens_refresh (u : Nat) (st : RedisStore) :
    (storeDelUserTokens u st).refresh = st.refresh := rfl

theorem storeDelUserTokens_blacklist (u : Nat) (st : RedisStore) :
    (storeDelUserTokens u st).blacklist = st.blacklist := rfl

theorem storeSetexRefresh_refresh (tok : String) (ttl : ℤ) (d : RefreshTokenData)
    (st : RedisStore) :
    (storeSetexRefresh tok ttl d st).refresh = aset tok ⟨ttl, d⟩ st.refresh := rfl

theorem storeSetexRefresh_blacklist (tok : String) (ttl : ℤ) (d : RefreshTokenData)
    (st : RedisStore) :
    (storeSetexRefresh tok ttl d st).blacklist = st.blacklist := rfl

theorem storeSetexBlacklist_refresh (tok : String) (ttl : ℤ) (st : RedisStore) :
    (storeSetexBlacklist tok ttl st).refresh = st.refresh := rfl

theorem storeSetexBlacklist_userTokens (tok : String) (ttl : ℤ) (st : RedisStore) :
    (storeSetexBlacklist tok ttl st).userTokens = st.userTokens := rfl

theorem storeSetexBlacklist_blacklist (tok : String) (ttl : ℤ) (st : RedisStore) :
    (storeSetexBlacklist tok ttl st).blacklist = aset tok ttl st.blacklist := rfl

theorem storeEraseRefreshAll_userTokens (ts : List String) (st : RedisStore) :
    (storeEraseRefreshAll ts st).userTokens = st.userTokens := by
  induction ts generalizing st with
  | nil => rfl
  | cons t rest ih => simp [storeEraseRefreshAll, ih, storeDelRefresh_userTokens]

theorem storeEraseRefreshAll_blacklist (ts : List String) (st : RedisStore) :
    (storeEraseRefreshAll ts st).blacklist = st.blacklist := by
  induction ts generalizing st with
  | nil => rfl
  | cons t rest ih => simp [storeEraseRefreshAll, ih, storeDelRefresh_blacklist]

theorem alookup_storeEraseRefreshAll (ts : List String) (t : String) (st : RedisStore) :
    alookup t (storeEraseRefreshAll ts st).refresh
      = if t ∈ ts then none else alookup t st.refresh := by
  induction ts generalizing st with
  | nil => simp [storeEraseRefreshAll]
  | cons x rest ih =>
    by_cases hx : t = x
    · subst hx
      by_cases hm : t ∈ rest
      · simp [storeEraseRefreshAll, ih, hm]
      · simp [storeEraseRefreshAll, ih, hm, storeDelRefresh_refresh, alookup_aerase_self]
    · by_cases hm : t ∈ rest
      · simp [storeEraseRefreshAll, ih, hm, hx]
      · simp [storeEraseRefreshAll, ih, hm, hx, storeDelRefresh_refresh,
          alookup_aerase_ne _ hx]

end NestAuth

namespace NestAuth

theorem mcatch_pure_ok {α : Type} (m : TokenM α) (x : α) (s : St) :
    ∃ r s', mcatch m (fun _ => mpure x) s = (Except.ok r, s') := by
  rcases hm : m s with ⟨res, s'⟩
  cases res with
  | ok a => exact ⟨a, s', by simp [mcatch, hm]⟩
  | error e => exact ⟨x, s', by simp [mcatch, hm, mpure]⟩

end NestAuth

/-- C7 Revoke is idempotent: on a fault-free store, a second sequential
`revokeRefreshToken(t)` raises no error and leaves exactly the state the first
call produced, and when no record exists for `t` the call is an error-free
no-op. -/
theorem C7_revoke_idempotent (t : String) (store : NestAuth.RedisStore)
    (us : Nat → String) (idx : Nat) :
    NestAuth.revokeRefreshToken t ((NestAuth.revokeRefreshToken t ⟨store, [], us, idx⟩).2)
      = (Except.ok (), (NestAuth.revokeRefreshToken t ⟨store, [], us, idx⟩).2)
    ∧ (NestAuth.alookup t store.refresh = none →
        NestAuth.revokeRefreshToken t ⟨store, [], us, idx⟩
          = (Except.ok (), ⟨store, [], us, idx⟩)) := by
  constructor
  · rw [NestAuth.revoke_ff, NestAuth.revoke_ff]
    cases halk : NestAuth.alookup t store.refresh with
    | none => simp [halk]
    | some e =>
      simp [halk, NestAuth.storeDelRefresh_refresh, NestAuth.storeSrem_refresh,
        NestAuth.alookup_aerase_self]
  · intro h
    rw [NestAuth.revoke_ff]
    simp [h]

/-- C7 witness: revoking the absent token "tx" on the fixture store is an
error-free no-op. -/
theorem C7_revoke_idempotent_witness :
    NestAuth.revokeRefreshToken "tx" ⟨NestAuth.store0, [], NestAuth.uuidTwo, 0⟩
      = (Except.ok (), ⟨NestAuth.store0, [], NestAuth.uuidTwo, 0⟩) :=
  (C7_revoke_idempotent "tx" NestAuth.store0 NestAuth.uuidTwo 0).2 (by decide)

/-- C4 Refresh-token verify is fail-closed: absent record gives null with the
state untouched; a present record whose embedded expiry lies in the past gives
null and deletes the record; the function never propagates an error; and when
the store `get` raises (fault at the head of the schedule) the result is
null. -/
theorem C4_verify_fail_closed :
    (∀ (now : ℚ) (t : String) (store : NestAuth.RedisStore) (us : Nat → String) (idx : Nat),
        NestAuth.alookup t store.refresh = none →
        NestAuth.verifyRefreshToken now t ⟨store, [], us, idx⟩
          = (Except.ok none, ⟨store, [], us, idx⟩))
    ∧ (∀ (now : ℚ) (t : String) (store : NestAuth.RedisStore) (us : Nat → String) (idx : Nat)
          (e : NestAuth.RefreshEntry),
        NestAuth.alookup t store.refresh = some e → e.data.expiresAt < now →
        (NestAuth.verifyRefreshToken now t ⟨store, [], us, idx⟩).1 = Except.ok none
        ∧ NestAuth.alookup t
            ((NestAuth.verifyRefreshToken now t ⟨store, [], us, idx⟩).2).store.refresh = none)
    ∧ (∀ (now : ℚ) (t : String) (s : NestAuth.St),
        ∃ r s', NestAuth.verifyRefreshToken now t s = (Except.ok r, s'))
    ∧ (∀ (now : ℚ) (t : String) (s : NestAuth.St) (rest : List Bool),
        s.faults = true :: rest →
        (NestAuth.verifyRefreshToken now t s).1 = Except.ok none) := by
  refine ⟨?_, ?_, ?_, ?_⟩
  · intro now t store us idx h
    rw [NestAuth.verify_ff]
    simp [h]
  · intro now t store us idx e h hexp
    rw [NestAuth.verify_ff]
    constructor
    · simp [h, hexp]
    · simp [h, hexp, NestAuth.storeDelRefresh_refresh, NestAuth.storeSrem_refresh,
        NestAuth.alookup_aerase_self]
  · intro now t s
    exact NestAuth.mcatch_pure_ok _ none s
  · intro now t s rest h
    simp [NestAuth.verifyRefreshToken, NestAuth.mcatch, NestAuth.mbind, NestAuth.mpure,
      NestAuth.redisGetRefresh, NestAuth.redisOp, h]

/-- C4 witness: the three hypothesised cases evaluated on the fixture store —
unknown token, store-expired record (expiry 100 checked at time 200), and a
faulting `get`. -/
theorem C4_verify_fail_closed_witness :
    NestAuth.verifyRefreshToken 50 "tx" ⟨NestAuth.store0, [], NestAuth.uuidTwo, 0⟩
      = (Except.ok none, ⟨NestAuth.store0, [], NestAuth.uuidTwo, 0⟩)
    ∧ (NestAuth.verifyRefreshToken 200 "t0" ⟨NestAuth.store0, [], NestAuth.uuidTwo, 0⟩).1
        = Except.ok none
    ∧ (NestAuth.verifyRefreshToken 0 "t0" ⟨NestAuth.store0, [true], NestAuth.uuidTwo, 0⟩).1
        = Except.ok none :=
  ⟨C4_verify_fail_closed.1 50 "tx" NestAuth.store0 NestAuth.uuidTwo 0 (by decide),
   (C4_verify_fail_closed.2.1 200 "t0" NestAuth.store0 NestAuth.uuidTwo 0
      ⟨100, NestAuth.data0⟩ (by decide) (by decide)).1,
   C4_verify_fail_closed.2.2.2 0 "t0" ⟨NestAuth.store0, [true], NestAuth.uuidTwo, 0⟩ [] rfl⟩

/-- C3 counterexample: with a decodable expiry claim (exp = 50) that is already
in the past at call time (now = 100), `blacklistAccessToken` stores nothing —
after the call the blacklist namespace is still empty, so no marker exists,
contradicting the claim that a marker exists in every case. -/
theorem C3_blacklist_add_counterexample :
    ((NestAuth.blacklistAccessToken NestAuth.cfg0 (fun _ => some 50) 100 "atk"
        ⟨NestAuth.emptyStore, [], NestAuth.uuidTwo, 0⟩).2).store.blacklist = []
    ∧ (NestAuth.blacklistAccessToken NestAuth.cfg0 (fun _ => some 50) 100 "atk"
        ⟨NestAuth.emptyStore, [], NestAuth.uuidTwo, 0⟩).1 = Except.ok () := by
  constructor
  · rfl
  · rfl

/-- C3 amended: on a fault-free store, `blacklistAccessToken` stores a marker
with time-to-live `exp − now` when the expiry claim is decodable, non-zero and
still in the future; stores a marker with the configured default access-token
lifetime when the claim is unreadable (or zero); and stores nothing at all when
the claim is decodable but the token is already expired (`exp − now ≤ 0`) — so
a marker exists after the call in every case except the already-expired one. -/
theorem C3_blacklist_add (cfg : NestAuth.TokenConfig) (dec : String → Option ℤ)
    (nowSec : ℤ) (tok : String) (store : NestAuth.RedisStore) (us : Nat → String) (idx : Nat) :
    (dec tok = none →
      NestAuth.blacklistAccessToken cfg dec nowSec tok ⟨store, [], us, idx⟩
        = (Except.ok (),
           ⟨NestAuth.storeSetexBlacklist tok cfg.accessTokenExpirationSeconds store,
            [], us, idx⟩))
    ∧ (∀ e : ℤ, dec tok = some e → e ≠ 0 → e - nowSec > 0 →
        NestAuth.blacklistAccessToken cfg dec nowSec tok ⟨store, [], us, idx⟩
          = (Except.ok (),
             ⟨NestAuth.storeSetexBlacklist tok (e - nowSec) store, [], us, idx⟩))
    ∧ (∀ e : ℤ, dec tok = some e → e ≠ 0 → e - nowSec ≤ 0 →
        NestAuth.blacklistAccessToken cfg dec nowSec tok ⟨store, [], us, idx⟩
          = (Except.ok (), ⟨store, [], us, idx⟩))
    ∧ (dec tok = some 0 →
        NestAuth.blacklistAccessToken cfg dec nowSec tok ⟨store, [], us, idx⟩
          = (Except.ok (),
             ⟨NestAuth.storeSetexBlacklist tok cfg.accessTokenExpirationSeconds store,
              [], us, idx⟩)) := by
  refine ⟨?_, ?_, ?_, ?_⟩
  · intro h
    rw [NestAuth.blacklist_ff]
    simp [h]
  · intro e h he hp
    rw [NestAuth.blacklist_ff]
    simp [h, he, hp]
  · intro e h he hle
    have hnp : ¬ (e - nowSec > 0) := not_lt.mpr hle
    rw [NestAuth.blacklist_ff]
    simp [h, he, hnp]
  · intro h
    rw [NestAuth.blacklist_ff]
    simp [h]

/-- C3 witness: a still-valid expiry claim (exp = 500 at now = 100) leaves a
marker with ttl 400, and an unreadable claim leaves a marker with the default
3600-second lifetime. -/
theorem C3_blacklist_add_witness :
    ((NestAuth.blacklistAccessToken NestAuth.cfg0 (fun _ => some 500) 100 "atk"
        ⟨NestAuth.emptyStore, [], NestAuth.uuidTwo, 0⟩).2).store.blacklist = [("atk", 400)]
    ∧ ((NestAuth.blacklistAccessToken NestAuth.cfg0 (fun _ => none) 100 "atk2"
        ⟨NestAuth.emptyStore, [], NestAuth.uuidTwo, 0⟩).2).store.blacklist = [("atk2", 3600)] := by
  constructor
  · have h := (C3_blacklist_add NestAuth.cfg0 (fun _ => some 500) 100 "atk"
      NestAuth.emptyStore NestAuth.uuidTwo 0).2.1 500 rfl (by decide) (by decide)
    rw [h]
    decide
  · have h := (C3_blacklist_add NestAuth.cfg0 (fun _ => none) 100 "atk2"
      NestAuth.emptyStore NestAuth.uuidTwo 0).1 rfl
    rw [h]
    decide

namespace NestAuth

theorem blacklist_ff_parts (cfg : TokenConfig) (dec : String → Option ℤ) (nowSec : ℤ)
    (tok : String) (store : RedisStore) (us : Nat → String) (idx : Nat) :
    ∃ S₂ : RedisStore,
      blacklistAccessToken cfg dec nowSec tok ⟨store, [], us, idx⟩
        = (Except.ok (), ⟨S₂, [], us, idx⟩)
      ∧ S₂.refresh = store.refresh ∧ S₂.userTokens = store.userTokens
      ∧ ((dec tok = none ∨ dec tok = some 0
            ∨ (∃ e, dec tok = some e ∧ e ≠ 0 ∧ e - nowSec > 0)) →
          (alookup tok S₂.blacklist).isSome = true) := by
  rw [blacklist_ff]
  cases hdec : dec tok with
  | none =>
    refine ⟨storeSetexBlacklist tok cfg.accessTokenExpirationSeconds store, rfl, rfl, rfl, ?_⟩
    intro _
    simp [storeSetexBlacklist_blacklist, alookup_aset_self]
  | some e =>
    by_cases he : e = 0
    · subst he
      refine ⟨storeSetexBlacklist tok cfg.accessTokenExpirationSeconds store, by simp, rfl,
        rfl, ?_⟩
      intro _
      simp [storeSetexBlacklist_blacklist, alookup_aset_self]
    · by_cases hp : e - nowSec > 0
      · refine ⟨storeSetexBlacklist tok (e - nowSec) store, by simp [he, hp], rfl, rfl, ?_⟩
        intro _
        simp [storeSetexBlacklist_blacklist, alookup_aset_self]
      · refine ⟨store, by simp [he, hp], rfl, rfl, ?_⟩
        intro hcase
        rcases hcase with h | h | ⟨e', he', hne', hp'⟩
        · exact absurd h (by simp)
        · injection h with h0
          exact absurd h0 he
        · injection he' with h0
          subst h0
          exact absurd hp' hp

theorem revokeUser_ff_parts (uid : Nat) (store : RedisStore) (us : Nat → String) (idx : Nat) :
    ∃ S₃ : RedisStore,
      revokeUserRefreshTokens uid ⟨store, [], us, idx⟩ = (Except.ok (), ⟨S₃, [], us, idx⟩)
      ∧ S₃.blacklist = store.blacklist
      ∧ (∀ t ∈ (alookup uid store.userTokens).getD [], alookup t S₃.refresh = none) := by
  rw [revokeUser_ff]
  by_cases h : (alookup uid store.userTokens).getD [] = []
  · refine ⟨store, by simp [h], rfl, ?_⟩
    intro t ht
    rw [h] at ht
    exact absurd ht (List.not_mem_nil t)
  · refine ⟨storeDelUserTokens uid
      (storeEraseRefreshAll ((alookup uid store.userTokens).getD []) store), by simp [h], ?_, ?_⟩
    · rw [storeDelUserTokens_blacklist, storeEraseRefreshAll_blacklist]
    · intro t ht
      rw [storeDelUserTokens_refresh, alookup_storeEraseRefreshAll]
      simp [ht]

end NestAuth

/-- C2 counterexample: logging out with an access token whose decoded expiry
(50) is already past at call time (100) leaves the token NOT blacklisted —
`isAccessTokenBlacklisted` returns false after `logout` completes,
contradicting the claim that it returns true for every access token. -/
theorem C2_logout_counterexample :
    (NestAuth.isAccessTokenBlacklisted "atk"
        ((NestAuth.serviceLogout NestAuth.cfg0 (fun _ => some 50) 100 1 "atk"
            ⟨NestAuth.store0, [], NestAuth.uuidTwo, 0⟩).2)).1 = Except.ok false := by
  rfl

/-- C2 amended: `logout` is the sequential composition blacklist-then-revoke
(the blacklisting step precedes the revocation step); on a fault-free store,
after `logout(userId, accessToken)` completes, `isBlacklisted(accessToken)` is
true provided the token's decoded expiry claim is absent, zero, or still in the
future (an already-expired decodable claim stores no marker), and every refresh
token in the user's index set fails `verify` with null. -/
theorem C2_logout_invalidates (cfg : NestAuth.TokenConfig) (dec : String → Option ℤ)
    (nowSec : ℤ) (uid : Nat) (tok : String) (store : NestAuth.RedisStore)
    (us : Nat → String) (idx : Nat) (now : ℚ) :
    NestAuth.serviceLogout cfg dec nowSec uid tok
      = NestAuth.mbind (NestAuth.blacklistAccessToken cfg dec nowSec tok)
          (fun _ => NestAuth.revokeUserRefreshTokens uid)
    ∧ ((dec tok = none ∨ dec tok = some 0
          ∨ (∃ e, dec tok = some e ∧ e ≠ 0 ∧ e - nowSec > 0)) →
        (NestAuth.isAccessTokenBlacklisted tok
            ((NestAuth.serviceLogout cfg dec nowSec uid tok ⟨store, [], us, idx⟩).2)).1
          = Except.ok true)
    ∧ (∀ t ∈ (NestAuth.alookup uid store.userTokens).getD [],
        (NestAuth.verifyRefreshToken now t
            ((NestAuth.serviceLogout cfg dec nowSec uid tok ⟨store, [], us, idx⟩).2)).1
          = Except.ok none) := by
  obtain ⟨S₂, h2, h2r, h2u, h2b⟩ :=
    NestAuth.blacklist_ff_parts cfg dec nowSec tok store us idx
  obtain ⟨S₃, h3, h3b, h3r⟩ := NestAuth.revokeUser_ff_parts uid S₂ us idx
  have hrun : NestAuth.serviceLogout cfg dec nowSec uid tok ⟨store, [], us, idx⟩
      = (Except.ok (), ⟨S₃, [], us, idx⟩) := by
    simp [NestAuth.serviceLogout, NestAuth.mbind, h2, h3]
  refine ⟨rfl, ?_, ?_⟩
  · intro hp
    rw [hrun]
    simp [NestAuth.isBlacklisted_ff, h3b, h2b hp]
  · intro t ht
    have hnone : NestAuth.alookup t S₃.refresh = none := by
      apply h3r
      rw [h2u]
      exact ht
    rw [hrun]
    simp [NestAuth.verify_ff, hnone]

/-- C2 witness: logging out user 1 with a still-valid access token (exp 500 at
now 100) on the fixture store blacklists the token and invalidates the indexed
refresh token "t0". -/
theorem C2_logout_invalidates_witness :
    (NestAuth.isAccessTokenBlacklisted "atk"
        ((NestAuth.serviceLogout NestAuth.cfg0 (fun _ => some 500) 100 1 "atk"
            ⟨NestAuth.store0, [], NestAuth.uuidTwo, 0⟩).2)).1 = Except.ok true
    ∧ (NestAuth.verifyRefreshToken 0 "t0"
        ((NestAuth.serviceLogout NestAuth.cfg0 (fun _ => some 500) 100 1 "atk"
            ⟨NestAuth.store0, [], NestAuth.uuidTwo, 0⟩).2)).1 = Except.ok none := by
  have h := C2_logout_invalidates NestAuth.cfg0 (fun _ => some 500) 100 1 "atk"
    NestAuth.store0 NestAuth.uuidTwo 0 0
  exact ⟨h.2.1 (Or.inr (Or.inr ⟨500, rfl, by decide, by decide⟩)), h.2.2 "t0" (by decide)⟩

/-- C6 counterexample: a bearer token that is blacklisted (marker present with
ttl 500) and whose signature verification fails is rejected by the
signature-verification stage with a generic invalid-token failure, not with
TokenRevoked — the framework verifies the signature before
`JwtStrategy.validate` ever consults the blacklist. -/
theorem C6_blacklist_first_counterexample :
    (NestAuth.requestAuth NestAuth.env0 (fun _ => none) (some "atk")
        ⟨⟨[], [], [], [("atk", 500)]⟩, [], NestAuth.uuidTwo, 0⟩).1
      = Except.ok NestAuth.RequestAuthResult.unauthorizedInvalid
    ∧ NestAuth.RequestAuthResult.unauthorizedInvalid
        ≠ NestAuth.RequestAuthResult.unauthorizedRevoked := by
  constructor
  · rfl
  · decide

/-- C6 amended: the blacklist is consulted after signature/claims verification
but before the subject is resolved — for a request whose bearer token passes
the codec's verification, a blacklist hit yields TokenRevoked regardless of the
user table (fault-free store); and a token that fails verification is rejected
as invalid regardless of the blacklist. -/
theorem C6_blacklist_before_subject (env : NestAuth.AuthEnv)
    (cv : String → Option Nat) (tok : String) (sub : Nat)
    (store : NestAuth.RedisStore) (us : Nat → String) (idx : Nat) :
    (cv tok = some sub → (NestAuth.alookup tok store.blacklist).isSome = true →
      NestAuth.requestAuth env cv (some tok) ⟨store, [], us, idx⟩
        = (Except.ok NestAuth.RequestAuthResult.unauthorizedRevoked, ⟨store, [], us, idx⟩))
    ∧ (cv tok = none →
        NestAuth.requestAuth env cv (some tok) ⟨store, [], us, idx⟩
          = (Except.ok NestAuth.RequestAuthResult.unauthorizedInvalid,
             ⟨store, [], us, idx⟩)) := by
  constructor
  · intro hv hb
    simp [NestAuth.requestAuth, hv, NestAuth.mbind, NestAuth.mpure, NestAuth.isBlacklisted_ff,
      hb]
  · intro hv
    simp [NestAuth.requestAuth, hv, NestAuth.mpure]

/-- C6 witness: a verifiable blacklisted token is rejected as TokenRevoked even
though its subject (user 1) exists, and an unverifiable token is rejected as
invalid on the same store. -/
theorem C6_blacklist_before_subject_witness :
    NestAuth.requestAuth NestAuth.env0 (fun _ => some 1) (some "atk")
        ⟨⟨[], [], [], [("atk", 500)]⟩, [], NestAuth.uuidTwo, 0⟩
      = (Except.ok NestAuth.RequestAuthResult.unauthorizedRevoked,
         ⟨⟨[], [], [], [("atk", 500)]⟩, [], NestAuth.uuidTwo, 0⟩)
    ∧ NestAuth.requestAuth NestAuth.env0 (fun _ => none) (some "atk2")
        ⟨⟨[], [], [], [("atk", 500)]⟩, [], NestAuth.uuidTwo, 0⟩
      = (Except.ok NestAuth.RequestAuthResult.unauthorizedInvalid,
         ⟨⟨[], [], [], [("atk", 500)]⟩, [], NestAuth.uuidTwo, 0⟩) :=
  ⟨(C6_blacklist_before_subject NestAuth.env0 (fun _ => some 1) "atk" 1
      ⟨[], [], [], [("atk", 500)]⟩ NestAuth.uuidTwo 0).1 rfl (by decide),
   (C6_blacklist_before_subject NestAuth.env0 (fun _ => none) "atk2" 0
      ⟨[], [], [], [("atk", 500)]⟩ NestAuth.uuidTwo 0).2 rfl⟩

/-- C10 Rotation is atomic with respect to user-lookup failure: when the
presented token verifies (record present, embedded expiry not in the past) but
the owning user cannot be resolved, `AuthService.refreshToken` fails with the
`NotFoundException` of `findOne` before the revocation step runs: the returned
state is exactly the input state, and the same token still verifies to the same
record afterwards. -/
theorem C10_rotation_atomic_user_missing (cfg : NestAuth.TokenConfig)
    (env : NestAuth.AuthEnv) (now : ℚ) (t : String) (o : Option NestAuth.TokenGenOptions)
    (store : NestAuth.RedisStore) (us : Nat → String) (idx : Nat) (e : NestAuth.RefreshEntry)
    (halk : NestAuth.alookup t store.refresh = some e)
    (hexp : ¬ e.data.expiresAt < now)
    (hu : NestAuth.alookup e.data.userId env.users = none) :
    NestAuth.authRefreshToken cfg env now t o ⟨store, [], us, idx⟩
      = (Except.error NestAuth.AppError.notFound, ⟨store, [], us, idx⟩)
    ∧ (NestAuth.verifyRefreshToken now t ⟨store, [], us, idx⟩).1
        = Except.ok (some e.data) := by
  constructor
  · simp [NestAuth.authRefreshToken, NestAuth.mbind, NestAuth.verify_ff, halk, hexp,
      NestAuth.authRefreshRest, NestAuth.usersFindOne, hu]
  · simp [NestAuth.verify_ff, halk, hexp]

/-- C10 witness: on the fixture store, rotating "t0" when its owner (user 1)
is absent from the user table fails with NotFound, leaves the state untouched,
and "t0" still verifies. -/
theorem C10_rotation_atomic_user_missing_witness :
    NestAuth.authRefreshToken NestAuth.cfg0 NestAuth.env1 0 "t0" none
        ⟨NestAuth.store0, [], NestAuth.uuidTwo, 0⟩
      = (Except.error NestAuth.AppError.notFound, ⟨NestAuth.store0, [], NestAuth.uuidTwo, 0⟩)
    ∧ (NestAuth.verifyRefreshToken 0 "t0" ⟨NestAuth.store0, [], NestAuth.uuidTwo, 0⟩).1
        = Except.ok (some NestAuth.data0) :=
  C10_rotation_atomic_user_missing NestAuth.cfg0 NestAuth.env1 0 "t0" none
    NestAuth.store0 NestAuth.uuidTwo 0 ⟨100, NestAuth.data0⟩ (by decide) (by decide) rfl

namespace NestAuth

theorem rotate_ff_success_shape (cfg : TokenConfig) (env : AuthEnv) (now : ℚ) (t : String)
    (o : Option TokenGenOptions) (store : RedisStore) (us : Nat → String) (idx : Nat)
    (e : RefreshEntry) (role : AppRole)
    (halk : alookup t store.refresh = some e) (hexp : ¬ e.data.expiresAt < now)
    (hu : alookup e.data.userId env.users = some role) (hfresh : us idx ≠ t) :
    authRefreshToken cfg env now t o ⟨store, [], us, idx⟩
      = (Except.ok
          { tokens :=
              { accessToken := env.sign e.data.userId role, refreshToken := us idx,
                expiresIn :=
                  parseExpiresToSeconds (configGet env.config "jwt.accessExpiresIn" "3600s") } },
         ⟨storeExpireUserTokens e.data.userId
            (Int.floor (now + cfg.refreshTokenExpirationDays * 86400 - now))
            (storeSadd e.data.userId (us idx)
              (storeSetexRefresh (us idx)
                (Int.floor (now + cfg.refreshTokenExpirationDays * 86400 - now))
                { userId := e.data.userId, role := role,
                  expiresAt := now + cfg.refreshTokenExpirationDays * 86400, createdAt := now,
                  ipAddress := o.bind TokenGenOptions.ipAddress,
                  userAgent := o.bind TokenGenOptions.userAgent }
                (storeDelRefresh t (storeSrem e.data.userId t store)))),
          [], us, idx + 1⟩)
    ∧ alookup t
        (storeExpireUserTokens e.data.userId
          (Int.floor (now + cfg.refreshTokenExpirationDays * 86400 - now))
          (storeSadd e.data.userId (us idx)
            (storeSetexRefresh (us idx)
              (Int.floor (now + cfg.refreshTokenExpirationDays * 86400 - now))
              { userId := e.data.userId, role := role,
                expiresAt := now + cfg.refreshTokenExpirationDays * 86400, createdAt := now,
                ipAddress := o.bind TokenGenOptions.ipAddress,
                userAgent := o.bind TokenGenOptions.userAgent }
              (storeDelRefresh t (storeSrem e.data.userId t store))))).refresh = none := by
  constructor
  · simp [authRefreshToken, mbind, verify_ff, halk, hexp, authRefreshRest, usersFindOne, hu,
      revoke_ff, issueTokens_ff]
  · rw [storeExpireUserTokens_refresh, storeSadd_refresh, storeSetexRefresh_refresh,
      alookup_aset_ne _ _ (Ne.symm hfresh), storeDelRefresh_refresh, storeSrem_refresh,
      alookup_aerase_self]

end NestAuth

/-- C1 Rotation is single-use: on a fault-free store, whenever a rotation of
refresh token `t` succeeds (and the freshly generated token strings differ from
`t`, as random UUIDs do), a subsequent sequential rotation presenting the same
`t` fails with `UnauthorizedException(auth.invalid_refresh_token)`, because the
first call's revocation removed the record and the second call's verify returns
null. -/
theorem C1_rotation_single_use (cfg : NestAuth.TokenConfig) (env : NestAuth.AuthEnv)
    (now₁ now₂ : ℚ) (t : String) (o₁ o₂ : Option NestAuth.TokenGenOptions)
    (store : NestAuth.RedisStore) (us : Nat → String) (idx : Nat)
    (r : NestAuth.AuthResponseDto) (st₁ : NestAuth.St)
    (hfresh : ∀ i, us i ≠ t)
    (h1 : NestAuth.authRefreshToken cfg env now₁ t o₁ ⟨store, [], us, idx⟩
            = (Except.ok r, st₁)) :
    (NestAuth.authRefreshToken cfg env now₂ t o₂ st₁).1
      = Except.error (NestAuth.AppError.unauthorized "auth.invalid_refresh_token") := by
  cases halk : NestAuth.alookup t store.refresh with
  | none =>
    exfalso
    simp [NestAuth.authRefreshToken, NestAuth.mbind, NestAuth.verify_ff, halk,
      NestAuth.mthrow] at h1
  | some e =>
    by_cases hexp : e.data.expiresAt < now₁
    · exfalso
      simp [NestAuth.authRefreshToken, NestAuth.mbind, NestAuth.verify_ff, halk, hexp,
        NestAuth.mthrow] at h1
    · cases hu : NestAuth.alookup e.data.userId env.users with
      | none =>
        exfalso
        simp [NestAuth.authRefreshToken, NestAuth.mbind, NestAuth.verify_ff, halk, hexp,
          NestAuth.authRefreshRest, NestAuth.usersFindOne, hu] at h1
      | some role =>
        obtain ⟨hrun, hnone⟩ := NestAuth.rotate_ff_success_shape cfg env now₁ t o₁ store us
          idx e role halk hexp hu (hfresh idx)
        rw [hrun] at h1
        have hst : st₁
            = ⟨NestAuth.storeExpireUserTokens e.data.userId
                (Int.floor (now₁ + cfg.refreshTokenExpirationDays * 86400 - now₁))
                (NestAuth.storeSadd e.data.userId (us idx)
                  (NestAuth.storeSetexRefresh (us idx)
                    (Int.floor (now₁ + cfg.refreshTokenExpirationDays * 86400 - now₁))
                    { userId := e.data.userId, role := role,
                      expiresAt := now₁ + cfg.refreshTokenExpirationDays * 86400,
                      createdAt := now₁,
                      ipAddress := o₁.bind NestAuth.TokenGenOptions.ipAddress,
                      userAgent := o₁.bind NestAuth.TokenGenOptions.userAgent }
                    (NestAuth.storeDelRefresh t
                      (NestAuth.storeSrem e.data.userId t store)))),
               [], us, idx + 1⟩ := (congrArg Prod.snd h1).symm
        rw [hst]
        simp only [NestAuth.authRefreshToken, NestAuth.verify_ff, NestAuth.mbind]
        rw [hnone]
        simp [NestAuth.mthrow]

/-- C1 witness: rotating "t0" on the fixture store succeeds, and rotating the
same "t0" again immediately afterwards fails with the invalid-refresh-token
error. -/
theorem C1_rotation_single_use_witness :
    (NestAuth.authRefreshToken NestAuth.cfg0 NestAuth.env0 5 "t0" none
        ((NestAuth.authRefreshToken NestAuth.cfg0 NestAuth.env0 0 "t0" none
            ⟨NestAuth.store0, [], NestAuth.uuidTwo, 0⟩).2)).1
      = Except.error (NestAuth.AppError.unauthorized "auth.invalid_refresh_token") :=
  C1_rotation_single_use NestAuth.cfg0 NestAuth.env0 0 5 "t0" none none
    NestAuth.store0 NestAuth.uuidTwo 0
    { tokens := { accessToken := "signed.jwt", refreshToken := "fresh0",
                  expiresIn := some 3600 } }
    ((NestAuth.authRefreshToken NestAuth.cfg0 NestAuth.env0 0 "t0" none
        ⟨NestAuth.store0, [], NestAuth.uuidTwo, 0⟩).2)
    (by
      intro i
      simp only [NestAuth.uuidTwo]
      split
      · decide
      · decide)
    (by rfl)

/-- C5 Concurrent same-token rotation is NOT exclusive in the code: the claim
is violated.  `revokeRefreshToken` is a `GET`-then-`DEL` pair, not an atomic
delete-and-return-previous-value, and the rotation flow does not fail when the
revoke finds nothing.  The following admissible interleaving of two requests
presenting the same token "t0" — request A executes its verify `GET`; request B
then runs its entire rotation; request A resumes after its verify (each
primitive being a single Redis command, this sequential composition is a legal
concurrent schedule) — makes BOTH rotations succeed with fresh pairs, so more
than one caller succeeds. -/
theorem C5_concurrent_rotation_not_exclusive :
    NestAuth.verifyRefreshToken 0 "t0" ⟨NestAuth.store0, [], NestAuth.uuidTwo, 0⟩
      = (Except.ok (some NestAuth.data0), ⟨NestAuth.store0, [], NestAuth.uuidTwo, 0⟩)
    ∧ (NestAuth.authRefreshToken NestAuth.cfg0 NestAuth.env0 0 "t0" none
          ⟨NestAuth.store0, [], NestAuth.uuidTwo, 0⟩).1
        = Except.ok
            { tokens :=
                { accessToken := "signed.jwt", refreshToken := "fresh0",
                  expiresIn := some 3600 } }
    ∧ (NestAuth.authRefreshRest NestAuth.cfg0 NestAuth.env0 0 "t0" NestAuth.data0 none
          ((NestAuth.authRefreshToken NestAuth.cfg0 NestAuth.env0 0 "t0" none
              ⟨NestAuth.store0, [], NestAuth.uuidTwo, 0⟩).2)).1
        = Except.ok
            { tokens :=
                { accessToken := "signed.jwt", refreshToken := "fresh1",
                  expiresIn := some 3600 } } := by
  refine ⟨?_, ?_, ?_⟩
  · rfl
  · rfl
  · rfl

/-- C8 Reported expiry agrees with the codec: whenever the configured
`jwt.accessExpiresIn` duration string (the very string `AuthModule` hands the
JWT signer as `expiresIn`) is of the supported `<integer><unit>` grammar, the
`expiresIn` value that `issueTokens` computes independently through
`parseExpiresToSeconds` equals the lifetime in seconds the Token Codec embeds
in the signed access token. -/
theorem C8_expiresIn_matches_codec (cfg : NestAuth.TokenConfig) (env : NestAuth.AuthEnv)
    (now : ℚ) (uid : Nat) (role : NestAuth.AppRole) (opts : Option NestAuth.TokenGenOptions)
    (store : NestAuth.RedisStore) (us : Nat → String) (idx : Nat)
    (ds : List Char) (u : Char)
    (hne : ds ≠ []) (hds : ∀ c ∈ ds, c.isDigit) (hu : NestAuth.isUnitChar u)
    (hcfg : NestAuth.authModuleAccessExpiresIn env.config = String.mk (ds ++ [u])) :
    (NestAuth.issueTokens cfg env now uid role opts ⟨store, [], us, idx⟩).1
      = Except.ok
          { tokens :=
              { accessToken := env.sign uid role, refreshToken := us idx,
                expiresIn := some (NestAuth.codecLifetimeSeconds ds u) } } := by
  rw [NestAuth.issueTokens_ff]
  have h2 : NestAuth.configGet env.config "jwt.accessExpiresIn" "3600s"
      = String.mk (ds ++ [u]) := hcfg
  rw [h2, NestAuth.parseExpiresToSeconds_unit ds u hne hds hu]
  rfl

/-- C8 witness: with `jwt.accessExpiresIn = 1h`, `issueTokens` reports the
codec lifetime of "1h", which is 3600 seconds. -/
theorem C8_expiresIn_matches_codec_witness :
    (NestAuth.issueTokens NestAuth.cfg0 NestAuth.env0 0 1 NestAuth.AppRole.USER none
        ⟨NestAuth.emptyStore, [], NestAuth.uuidTwo, 0⟩).1
      = Except.ok
          { tokens :=
              { accessToken := "signed.jwt", refreshToken := "fresh0",
                expiresIn := some (NestAuth.codecLifetimeSeconds ['1'] 'h') } }
    ∧ NestAuth.codecLifetimeSeconds ['1'] 'h' = 3600 :=
  ⟨C8_expiresIn_matches_codec NestAuth.cfg0 NestAuth.env0 0 1 NestAuth.AppRole.USER none
     NestAuth.emptyStore NestAuth.uuidTwo 0 ['1'] 'h' (by decide) (by decide) (by decide)
     (by decide),
   by decide⟩
